import Mathlib

/-!
Shallow embedding of `src/tinder-wrapper.js` (bueroalerta/tinder-wrapper).

The file models the JavaScript values the wrapper manipulates, the response
interpreter `handleResponse`, the default-options merge performed by the
constructor, the retry dispatcher built around the per-verb circuit breaker,
and the eight endpoint methods of the `TinderWrapper` class.  Endpoint
methods are split into their synchronous phase (argument and credential
validation followed by construction of the request descriptor; returning an
error here means no HTTP request is ever dispatched) and, where a claim
needs it, the response-interpretation phase applied to the transport's
response.
-/

/-- A JavaScript value, restricted to the shapes the wrapper manipulates.
A `Date` instance is represented by its ISO-8601 rendering (`date iso`,
with `toISOString` returning `iso`); `str` is a primitive string while
`strObj` is a `String` wrapper object (`new String(...)`) — the two behave
differently under `instanceof` and `===`.  Objects are association lists of
fields. -/
inductive JSValue where
  | undefined
  | nullv
  | bool (b : Bool)
  | num (n : Int)
  | str (s : String)
  | strObj (s : String)
  | date (iso : String)
  | obj (fields : List (String × JSValue))

/-- JavaScript truthiness.  `undefined`, `null`, `false`, `0` and `''` are
falsy; every object (including `new String('')`) is truthy. -/
def JSValue.truthy : JSValue → Bool
  | .undefined => false
  | .nullv => false
  | .bool b => b
  | .num n => n != 0
  | .str s => s != ""
  | .strObj _ => true
  | .date _ => true
  | .obj _ => true

/-- Member access `v.k`.  In the source every access is either guarded by a
truthiness check on the receiver or made on an object, so the embedding
totalises it: a missing field, or access off a non-object, is `undefined`. -/
def JSValue.get : JSValue → String → JSValue
  | .obj fields, k =>
    match fields.find? (fun p => p.1 == k) with
    | some p => p.2
    | none => .undefined
  | _, _ => .undefined

/-- Template-literal rendering `${v}` as used in URLs and error messages. -/
def JSValue.display : JSValue → String
  | .undefined => "undefined"
  | .nullv => "null"
  | .bool b => if b then "true" else "false"
  | .num n => toString n
  | .str s => s
  | .strObj s => s
  | .date iso => iso
  | .obj _ => "[object Object]"

/-- Strict equality `v === 200` as used in `body.status !== 200`. -/
def JSValue.isNum200 : JSValue → Bool
  | .num n => n == 200
  | _ => false

/-- `v instanceof Date`: true exactly for `Date` instances. -/
def JSValue.isDateInstance : JSValue → Bool
  | .date _ => true
  | _ => false

/-- `v instanceof String`: true exactly for `String` wrapper objects, and in
particular FALSE for every primitive string. -/
def JSValue.isStringInstance : JSValue → Bool
  | .strObj _ => true
  | _ => false

/-- Strict equality `v === ''`: true exactly for the empty primitive string
(a `new String('')` object is not strictly equal to `''`). -/
def JSValue.isEmptyStrPrim : JSValue → Bool
  | .str s => s == ""
  | _ => false

/-- A raw transport response as destructured by `handleResponse` and the
dispatcher: `{ statusCode, statusMessage, body }`. -/
structure Response where
  statusCode : Nat
  statusMessage : String
  body : JSValue

/-- The wrapper's error taxonomy: the dedicated classes
`TinderNotAuthorizedError` and `TinderOutOfLikesError`, and the generic
`Error` carrying an interpolated message (used for `'invalid arguments'`,
HTTP errors and application-level errors). -/
inductive TinderError where
  | notAuthorized
  | outOfLikes
  | error (message : String)
deriving DecidableEq

/-- `handleResponse` (src/tinder-wrapper.js lines 19-34): statuses ≥ 300
are classified (401 → `TinderNotAuthorizedError`, otherwise a generic
`Error` with `statusCode statusMessage`); a status < 300 whose truthy body
carries a truthy `status` field not strictly equal to 200 fails with a
generic `Error` with `body.status body.error`; otherwise the body is
returned unchanged. -/
def handleResponse (r : Response) : Except TinderError JSValue :=
  if 300 ≤ r.statusCode then
    if r.statusCode = 401 then
      Except.error TinderError.notAuthorized
    else
      Except.error (TinderError.error (toString r.statusCode ++ " " ++ r.statusMessage))
  else if r.body.truthy && (r.body.get "status").truthy && !(r.body.get "status").isNum200 then
    Except.error (TinderError.error ((r.body.get "status").display ++ " " ++ (r.body.get "error").display))
  else
    Except.ok r.body

/-- Base URL of the remote API. -/
def BASE_URL : String := "https://api.gotinder.com"

/-- The request descriptor built by each endpoint method: URL, extra
headers (the `X-Auth-Token` credential header), optional JSON body. -/
structure RequestOptions where
  url : String
  headers : List (String × JSValue) := []
  body : JSValue := JSValue.undefined
  json : Bool := true

/-! ## Constructor options and the `_.defaultsDeep` merge -/

/-- Retry policy after the merge (all fields present). -/
structure RetryOpts where
  max_tries : Nat
  interval : Nat
  timeout : Nat
  throw_original : Bool
deriving DecidableEq

/-- Breaker policy after the merge (all fields present). -/
structure BreakerOpts where
  timeout : Nat
  threshold : Nat
  circuitDuration : Nat
deriving DecidableEq

/-- Retry policy as supplied by the caller: any field may be omitted. -/
structure RetryOptsArg where
  max_tries : Option Nat := none
  interval : Option Nat := none
  timeout : Option Nat := none
  throw_original : Option Bool := none

/-- Breaker policy as supplied by the caller: any field may be omitted. -/
structure BreakerOptsArg where
  timeout : Option Nat := none
  threshold : Option Nat := none
  circuitDuration : Option Nat := none

/-- Merged options: the `retry` and `breaker` groups named by the claims
(the `request`-headers group merges identically and is not modelled). -/
structure Options where
  retry : RetryOpts
  breaker : BreakerOpts
deriving DecidableEq

/-- Constructor options object: every field optional. -/
structure OptionsArg where
  retry : RetryOptsArg := {}
  breaker : BreakerOptsArg := {}

/-- `defaultOptions` (src lines 36-48): retry `{ max_tries: 2, interval:
1000, timeout: 16000, throw_original: true }`, breaker `{ timeout: 12000,
threshold: 80, circuitDuration: 3*60*60*1000 }`. -/
def defaultOptions : Options :=
  { retry := { max_tries := 2, interval := 1000, timeout := 16000, throw_original := true }
    breaker := { timeout := 12000, threshold := 80, circuitDuration := 3 * 60 * 60 * 1000 } }

/-- `_.defaultsDeep(options, defaultOptions)` as performed by the
constructor (src line 52): recursively fill in every field the caller left
unspecified from `defaultOptions`; caller-specified fields win. -/
def defaultsDeep (o : OptionsArg) : Options :=
  { retry :=
      { max_tries := o.retry.max_tries.getD defaultOptions.retry.max_tries
        interval := o.retry.interval.getD defaultOptions.retry.interval
        timeout := o.retry.timeout.getD defaultOptions.retry.timeout
        throw_original := o.retry.throw_original.getD defaultOptions.retry.throw_original }
    breaker :=
      { timeout := o.breaker.timeout.getD defaultOptions.breaker.timeout
        threshold := o.breaker.threshold.getD defaultOptions.breaker.threshold
        circuitDuration := o.breaker.circuitDuration.getD defaultOptions.breaker.circuitDuration } }

/-! ## The retry dispatcher (`_getRequest` / `_postRequest`, src lines 60-88)

Each dispatcher wraps one transport attempt (through the per-verb circuit
breaker) in `bluebird-retry`.  A single attempt re-raises any response with
status ≥ 500 as an error so that the retry wrapper sees it as a failure;
any other response passes through.  `retryRun` models the retry loop on
logical attempts: the transport is a list of responses consumed one per
attempt; `max_tries` is the total number of attempts; with the wrapper's
`throw_original: true` the error surfaced on exhaustion is the last
underlying failure.  Wall-clock `interval`/`timeout` are not modelled (the
claims concern attempt counts and results, not timing). -/

/-- One dispatcher attempt: the `.then` body of `_getRequest` /
`_postRequest` — a status ≥ 500 is thrown as `Error(statusCode
statusMessage)`, anything else is returned. -/
def attemptOnce (r : Response) : Except TinderError Response :=
  if 500 ≤ r.statusCode then
    Except.error (TinderError.error (toString r.statusCode ++ " " ++ r.statusMessage))
  else
    Except.ok r

/-- The retry loop: run up to `tries` attempts against the transport's
response sequence, returning the final outcome and the number of transport
attempts made. -/
def retryRun : Nat → List Response → Except TinderError Response × Nat
  | 0, _ => (Except.error (TinderError.error "tries exceeded"), 0)
  | _ + 1, [] => (Except.error (TinderError.error "network error"), 1)
  | t + 1, r :: rest =>
    match attemptOnce r with
    | Except.ok resp => (Except.ok resp, 1)
    | Except.error e =>
      if t = 0 then (Except.error e, 1)
      else
        let p := retryRun t rest
        (p.1, p.2 + 1)

/-! ## The `TinderWrapper` class and its endpoint methods

Each endpoint method is modelled by its synchronous phase: argument
validation and the credential check (performed inside `Promise.try`, so any
failure there occurs before the request descriptor exists and before any
transport invocation), followed by construction of the request descriptor.
Returning `Except.error` means no HTTP request is dispatched. -/

/-- The client instance state: the session credential `_authToken`, absent
(`undefined`) on a fresh instance, written by `authorize`. -/
structure TinderWrapper where
  authToken : JSValue := JSValue.undefined

/-- `authorize` synchronous phase (src lines 99-114): missing (falsy)
facebook token or user id fails with `Error('invalid arguments')`;
otherwise the `POST /auth` descriptor is built.  No credential check. -/
def TinderWrapper.authorize (_w : TinderWrapper)
    (facebookAccessToken facebookUserId : JSValue) : Except TinderError RequestOptions :=
  if !facebookAccessToken.truthy || !facebookUserId.truthy then
    Except.error (TinderError.error "invalid arguments")
  else
    Except.ok
      { url := BASE_URL ++ "/auth"
        body := JSValue.obj
          [("facebook_token", facebookAccessToken),
           ("facebook_id", facebookUserId),
           ("locale", JSValue.str "en")] }

/-- `authorize` full call (src lines 99-124): on a dispatched response, the
interpreted body's `token` field is stored as the session credential and
the body is returned. -/
def TinderWrapper.authorizeCall (w : TinderWrapper)
    (facebookAccessToken facebookUserId : JSValue) (resp : Response) :
    Except TinderError (TinderWrapper × JSValue) :=
  match w.authorize facebookAccessToken facebookUserId with
  | Except.error e => Except.error e
  | Except.ok _ =>
    match handleResponse resp with
    | Except.error e => Except.error e
    | Except.ok data => Except.ok ({ w with authToken := data.get "token" }, data)

/-- `getRecommendations` synchronous phase (src lines 126-144): fails with
`TinderNotAuthorizedError` when the credential is absent (falsy). -/
def TinderWrapper.getRecommendations (w : TinderWrapper) : Except TinderError RequestOptions :=
  if !w.authToken.truthy then
    Except.error TinderError.notAuthorized
  else
    Except.ok
      { url := BASE_URL ++ "/user/recs"
        headers := [("X-Auth-Token", w.authToken)] }

/-- `getAccount` synchronous phase (src lines 146-164). -/
def TinderWrapper.getAccount (w : TinderWrapper) : Except TinderError RequestOptions :=
  if !w.authToken.truthy then
    Except.error TinderError.notAuthorized
  else
    Except.ok
      { url := BASE_URL ++ "/meta"
        headers := [("X-Auth-Token", w.authToken)] }

/-- `getUser` synchronous phase (src lines 166-188): a falsy `userId` fails
with `Error('invalid arguments')` BEFORE the credential check. -/
def TinderWrapper.getUser (w : TinderWrapper) (userId : JSValue) : Except TinderError RequestOptions :=
  if !userId.truthy then
    Except.error (TinderError.error "invalid arguments")
  else if !w.authToken.truthy then
    Except.error TinderError.notAuthorized
  else
    Except.ok
      { url := BASE_URL ++ "/user/" ++ userId.display
        headers := [("X-Auth-Token", w.authToken)] }

/-- The argument guard of `getUpdates` (src line 192):
`lastActivityDate instanceof Date || (lastActivityDate instanceof String ||
lastActivityDate === '')`.  Note `instanceof String` is false for every
primitive string, so a non-empty primitive string never passes. -/
def updatesArgOk (v : JSValue) : Bool :=
  v.isDateInstance || (v.isStringInstance || v.isEmptyStrPrim)

/-- `getUpdates` synchronous phase (src lines 190-220): the argument guard
runs before the credential check; a `Date` argument is normalised with
`toISOString()` and the body carries it as `last_activity_date`.  The JS
default parameter `lastActivityDate = ''` is modelled by the caller passing
`JSValue.str ""` for a missing argument. -/
def TinderWrapper.getUpdates (w : TinderWrapper) (lastActivityDate : JSValue) :
    Except TinderError RequestOptions :=
  if !(updatesArgOk lastActivityDate) then
    Except.error (TinderError.error "invalid arguments")
  else if !w.authToken.truthy then
    Except.error TinderError.notAuthorized
  else
    Except.ok
      { url := BASE_URL ++ "/updates"
        headers := [("X-Auth-Token", w.authToken)]
        body := JSValue.obj
          [("last_activity_date",
            match lastActivityDate with
            | JSValue.date iso => JSValue.str iso
            | v => v)] }

/-- `sendMessage` synchronous phase (src lines 222-245): falsy `matchId` or
`message` fails with `Error('invalid arguments')` before the credential
check. -/
def TinderWrapper.sendMessage (w : TinderWrapper) (matchId message : JSValue) :
    Except TinderError RequestOptions :=
  if !matchId.truthy || !message.truthy then
    Except.error (TinderError.error "invalid arguments")
  else if !w.authToken.truthy then
    Except.error TinderError.notAuthorized
  else
    Except.ok
      { url := BASE_URL ++ "/user/matches/" ++ matchId.display
        headers := [("X-Auth-Token", w.authToken)]
        body := JSValue.obj [("message", message)] }

/-- `like` synchronous phase (src lines 247-265): falsy `userId` fails with
`Error('invalid arguments')` before the credential check; `photoId`,
`contentHash` and `sNumber` are interpolated unchecked into the URL. -/
def TinderWrapper.like (w : TinderWrapper)
    (userId photoId contentHash sNumber : JSValue) : Except TinderError RequestOptions :=
  if !userId.truthy then
    Except.error (TinderError.error "invalid arguments")
  else if !w.authToken.truthy then
    Except.error TinderError.notAuthorized
  else
    Except.ok
      { url := BASE_URL ++ "/like/" ++ userId.display ++ "?photoId=" ++ photoId.display
          ++ "&content_hash=" ++ contentHash.display ++ "&s_number=" ++ sNumber.display
        headers := [("X-Auth-Token", w.authToken)] }

/-- The quota gate of `like` (src lines 268-274): a truthy interpreted body
without a truthy `likes_remaining` field raises `TinderOutOfLikesError`;
any other body is returned unchanged. -/
def likeInterpret (data : JSValue) : Except TinderError JSValue :=
  if data.truthy && !(data.get "likes_remaining").truthy then
    Except.error TinderError.outOfLikes
  else
    Except.ok data

/-- `like` full call (src lines 247-275): synchronous phase, response
interpretation, then the quota gate. -/
def TinderWrapper.likeCall (w : TinderWrapper)
    (userId photoId contentHash sNumber : JSValue) (resp : Response) :
    Except TinderError JSValue :=
  match w.like userId photoId contentHash sNumber with
  | Except.error e => Except.error e
  | Except.ok _ =>
    match handleResponse resp with
    | Except.error e => Except.error e
    | Except.ok data => likeInterpret data

/-- `pass` synchronous phase (src lines 277-299): falsy `userId` fails with
`Error('invalid arguments')` before the credential check. -/
def TinderWrapper.pass (w : TinderWrapper) (userId : JSValue) : Except TinderError RequestOptions :=
  if !userId.truthy then
    Except.error (TinderError.error "invalid arguments")
  else if !w.authToken.truthy then
    Except.error TinderError.notAuthorized
  else
    Except.ok
      { url := BASE_URL ++ "/pass/" ++ userId.display
        headers := [("X-Auth-Token", w.authToken)] }

/-! ## The per-verb circuit breaker -/

/-- Modelled from the spec: the per-verb circuit breaker is implemented by
the external `brakes` library, wired at construction (src lines 55-59) but
whose source is not part of this repository.  State machine per spec §4.1:
in the closed state calls pass through and outcomes feed a rolling failure
rate; when the rate reaches `threshold` percent the breaker opens; while
open, every call is rejected with no transport attempt until
`circuitDuration` ms after opening; after that a probe call is allowed —
success closes the circuit, failure re-opens it.  Time is logical (ms as
`Nat`); the rolling window is modelled as the outcome counts since the
circuit last closed. -/
inductive BreakerState where
  | closed (failures : Nat) (total : Nat)
  | opened (openedAt : Nat)
deriving DecidableEq

/-- Outcome of presenting a call to the breaker: rejected without any
transport attempt, or attempted with the transport's success flag. -/
inductive BreakerOutcome where
  | rejected
  | attempted (success : Bool)
deriving DecidableEq

/-- Modelled from the spec: the rolling failure rate reaches the threshold
percentage (`failures/total ≥ threshold/100`). -/
def rateExceeds (threshold failures total : Nat) : Bool :=
  0 < total && threshold * total ≤ failures * 100

/-- Modelled from the spec: one call presented to the breaker at time `now`
with the transport outcome `transportSuccess` were it attempted. -/
def breakerCall (p : BreakerOpts) (s : BreakerState) (now : Nat) (transportSuccess : Bool) :
    BreakerOutcome × BreakerState :=
  match s with
  | BreakerState.closed f t =>
    let f := if transportSuccess then f else f + 1
    let t := t + 1
    if !transportSuccess && rateExceeds p.threshold f t then
      (BreakerOutcome.attempted transportSuccess, BreakerState.opened now)
    else
      (BreakerOutcome.attempted transportSuccess, BreakerState.closed f t)
  | BreakerState.opened a =>
    if now < a + p.circuitDuration then
      (BreakerOutcome.rejected, BreakerState.opened a)
    else if transportSuccess then
      (BreakerOutcome.attempted true, BreakerState.closed 0 0)
    else
      (BreakerOutcome.attempted false, BreakerState.opened now)

/-! ## Theorems -/

/-- C4: for every dispatched response with status ≥ 300, `handleResponse`
fails with `TinderNotAuthorizedError` when the status is 401, and with a
generic error carrying the status code and status message otherwise. -/
theorem handleResponse_ge300_classification (r : Response) (h : 300 ≤ r.statusCode) :
    (r.statusCode = 401 → handleResponse r = Except.error TinderError.notAuthorized) ∧
    (r.statusCode ≠ 401 →
      handleResponse r =
        Except.error (TinderError.error (toString r.statusCode ++ " " ++ r.statusMessage))) := by
  constructor <;> intro h401 <;> simp [handleResponse, h, h401]

/-- C4 witness: a 401 response yields `TinderNotAuthorizedError`; a 404
response yields the generic `404 Not Found` error. -/
theorem handleResponse_ge300_classification_witness :
    handleResponse ⟨401, "Unauthorized", JSValue.undefined⟩ = Except.error TinderError.notAuthorized ∧
    handleResponse ⟨404, "Not Found", JSValue.undefined⟩ =
      Except.error (TinderError.error "404 Not Found") :=
  ⟨(handleResponse_ge300_classification ⟨401, "Unauthorized", JSValue.undefined⟩ (by decide)).1 rfl,
   (handleResponse_ge300_classification ⟨404, "Not Found", JSValue.undefined⟩ (by decide)).2 (by decide)⟩

/-- C5 counterexample: a 200 response whose body carries the
application-level status field `0` — present and not equal to 200 — is
returned unchanged instead of failing, because the source requires the
`status` field to be truthy (`body.status &&`) and `0` is falsy. -/
theorem handleResponse_status_zero_passes :
    handleResponse ⟨200, "OK", JSValue.obj [("status", JSValue.num 0), ("error", JSValue.str "boom")]⟩
      = Except.ok (JSValue.obj [("status", JSValue.num 0), ("error", JSValue.str "boom")]) ∧
    (JSValue.obj [("status", JSValue.num 0), ("error", JSValue.str "boom")]).get "status"
      = JSValue.num 0 ∧
    ((JSValue.obj [("status", JSValue.num 0), ("error", JSValue.str "boom")]).get "status").isNum200
      = false :=
  ⟨rfl, rfl, rfl⟩

/-- C5 (amended): for every response with status < 300, if the body is
truthy and carries a truthy application-level `status` field not strictly
equal to 200, `handleResponse` fails with a generic error carrying that
field and the body's `error` message; otherwise (including when the status
field is present but falsy, such as `0`) the body is returned unchanged. -/
theorem handleResponse_lt300_app_status (r : Response) (h : r.statusCode < 300) :
    ((r.body.truthy && (r.body.get "status").truthy && !(r.body.get "status").isNum200) = true →
      handleResponse r =
        Except.error (TinderError.error
          ((r.body.get "status").display ++ " " ++ (r.body.get "error").display))) ∧
    ((r.body.truthy && (r.body.get "status").truthy && !(r.body.get "status").isNum200) = false →
      handleResponse r = Except.ok r.body) := by
  have h' : ¬ 300 ≤ r.statusCode := Nat.not_le.mpr h
  constructor <;> intro hc <;> simp [handleResponse, h', hc]

/-- C5 witness: a 200 response with application status 403 fails with
`403 denied`; a 200 response with no application status returns the body. -/
theorem handleResponse_lt300_app_status_witness :
    handleResponse ⟨200, "OK", JSValue.obj [("status", JSValue.num 403), ("error", JSValue.str "denied")]⟩
      = Except.error (TinderError.error "403 denied") ∧
    handleResponse ⟨200, "OK", JSValue.obj [("match", JSValue.bool true)]⟩
      = Except.ok (JSValue.obj [("match", JSValue.bool true)]) :=
  ⟨(handleResponse_lt300_app_status
      ⟨200, "OK", JSValue.obj [("status", JSValue.num 403), ("error", JSValue.str "denied")]⟩
      (by decide)).1 rfl,
   (handleResponse_lt300_app_status
      ⟨200, "OK", JSValue.obj [("match", JSValue.bool true)]⟩
      (by decide)).2 rfl⟩

/-- C2: every transport response with status ≥ 500 is re-raised by the
dispatcher's attempt body as a failure (triggering retry), and with
`max_tries = 3` a transport sequence of 500, 500, 200 yields the final 200
response with exactly three transport attempts. -/
theorem dispatch_retries_server_errors (r : Response) (h : 500 ≤ r.statusCode)
    (m1 m2 m3 : String) (b1 b2 b3 : JSValue) :
    attemptOnce r =
      Except.error (TinderError.error (toString r.statusCode ++ " " ++ r.statusMessage)) ∧
    retryRun 3 [⟨500, m1, b1⟩, ⟨500, m2, b2⟩, ⟨200, m3, b3⟩]
      = (Except.ok ⟨200, m3, b3⟩, 3) := by
  constructor
  · simp [attemptOnce, h]
  · rfl

/-- C2 witness: a 503 attempt fails with `503 Service Unavailable`, and the
concrete 500, 500, 200 run returns the 200 response in three attempts. -/
theorem dispatch_retries_server_errors_witness :
    attemptOnce ⟨503, "Service Unavailable", JSValue.undefined⟩
      = Except.error (TinderError.error "503 Service Unavailable") ∧
    retryRun 3 [⟨500, "e1", JSValue.undefined⟩, ⟨500, "e2", JSValue.undefined⟩, ⟨200, "OK", JSValue.obj []⟩]
      = (Except.ok ⟨200, "OK", JSValue.obj []⟩, 3) :=
  dispatch_retries_server_errors ⟨503, "Service Unavailable", JSValue.undefined⟩ (by decide)
    "e1" "e2" "OK" JSValue.undefined JSValue.undefined (JSValue.obj [])

/-- C7: with a credential present, a `like` call whose 200 response body
has `likes_remaining: 0` fails with `TinderOutOfLikesError`, and one whose
body has `likes_remaining: 5` returns that body unchanged. -/
theorem like_quota_zero_vs_five :
    TinderWrapper.likeCall { authToken := JSValue.str "sess" }
      (JSValue.str "u") (JSValue.str "p") (JSValue.str "c") (JSValue.str "s")
      ⟨200, "OK", JSValue.obj [("likes_remaining", JSValue.num 0)]⟩
      = Except.error TinderError.outOfLikes ∧
    TinderWrapper.likeCall { authToken := JSValue.str "sess" }
      (JSValue.str "u") (JSValue.str "p") (JSValue.str "c") (JSValue.str "s")
      ⟨200, "OK", JSValue.obj [("likes_remaining", JSValue.num 5)]⟩
      = Except.ok (JSValue.obj [("likes_remaining", JSValue.num 5)]) :=
  ⟨rfl, rfl⟩

/-- C10 counterexample: a falsy interpreted body (here `null`, from a 200
response with a null body) is returned to the caller by `like` even though
its `likes_remaining` field is not truthy — the quota gate only fires on
truthy bodies (`data && !data.likes_remaining`). -/
theorem like_falsy_body_returned :
    TinderWrapper.likeCall { authToken := JSValue.str "sess" }
      (JSValue.str "u") (JSValue.str "p") (JSValue.str "c") (JSValue.str "s")
      ⟨200, "OK", JSValue.nullv⟩ = Except.ok JSValue.nullv ∧
    (JSValue.nullv.get "likes_remaining").truthy = false :=
  ⟨rfl, rfl⟩

/-- C10 (amended): the quota gate of `like` fails with
`TinderOutOfLikesError` for every truthy interpreted body whose
`likes_remaining` field is absent or otherwise falsy; a truthy body with a
truthy `likes_remaining` is returned unchanged; and a falsy interpreted
body is also returned unchanged — so the bodies returned to the caller are
exactly the falsy ones and those with a truthy `likes_remaining`. -/
theorem like_quota_gate_amended (data : JSValue) :
    (data.truthy = true → (data.get "likes_remaining").truthy = false →
      likeInterpret data = Except.error TinderError.outOfLikes) ∧
    (data.truthy = true → (data.get "likes_remaining").truthy = true →
      likeInterpret data = Except.ok data) ∧
    (data.truthy = false → likeInterpret data = Except.ok data) := by
  refine ⟨?_, ?_, ?_⟩ <;> intro h1 <;> first
    | (intro h2; simp [likeInterpret, h1, h2])
    | simp [likeInterpret, h1]

/-- C10 witness: a body whose `likes_remaining` is the number 0 (truthy
body, falsy field) raises `TinderOutOfLikesError`; a body with
`likes_remaining: 5` is returned; the falsy body `null` is returned. -/
theorem like_quota_gate_amended_witness :
    likeInterpret (JSValue.obj [("likes_remaining", JSValue.num 0)])
      = Except.error TinderError.outOfLikes ∧
    likeInterpret (JSValue.obj [("likes_remaining", JSValue.num 5)])
      = Except.ok (JSValue.obj [("likes_remaining", JSValue.num 5)]) ∧
    likeInterpret JSValue.nullv = Except.ok JSValue.nullv :=
  ⟨(like_quota_gate_amended (JSValue.obj [("likes_remaining", JSValue.num 0)])).1 rfl rfl,
   (like_quota_gate_amended (JSValue.obj [("likes_remaining", JSValue.num 5)])).2.1 rfl rfl,
   (like_quota_gate_amended JSValue.nullv).2.2 rfl⟩

/-- C1 counterexample: on a client with no session credential, `getUser`
called with a missing (empty) `userId` fails with the generic
`Error('invalid arguments')`, not with `TinderNotAuthorizedError`: argument
validation precedes the credential check. -/
theorem getUser_no_credential_invalid_argument :
    TinderWrapper.getUser { authToken := JSValue.undefined } (JSValue.str "")
      = Except.error (TinderError.error "invalid arguments") ∧
    TinderWrapper.getUser { authToken := JSValue.undefined } (JSValue.str "")
      ≠ Except.error TinderError.notAuthorized := by
  refine ⟨rfl, ?_⟩
  intro h
  simp [TinderWrapper.getUser, JSValue.truthy] at h

/-- C1 (amended): for every authenticated operation, a call with the
session credential absent fails in the synchronous phase — no request
descriptor is produced, so no HTTP request is dispatched — and the error is
`TinderNotAuthorizedError` whenever the operation's own argument validation
passes (unconditionally for `getRecommendations` and `getAccount`; a call
that also fails argument validation gets `Error('invalid arguments')`
instead, since argument validation runs first). -/
theorem endpoints_require_credential (w : TinderWrapper) (hw : w.authToken.truthy = false)
    (userId matchId message photoId contentHash sNumber lad : JSValue)
    (hu : userId.truthy = true) (hm : matchId.truthy = true) (hmsg : message.truthy = true)
    (hlad : updatesArgOk lad = true) :
    w.getRecommendations = Except.error TinderError.notAuthorized ∧
    w.getAccount = Except.error TinderError.notAuthorized ∧
    w.getUser userId = Except.error TinderError.notAuthorized ∧
    w.getUpdates lad = Except.error TinderError.notAuthorized ∧
    w.sendMessage matchId message = Except.error TinderError.notAuthorized ∧
    w.like userId photoId contentHash sNumber = Except.error TinderError.notAuthorized ∧
    w.pass userId = Except.error TinderError.notAuthorized := by
  refine ⟨?_, ?_, ?_, ?_, ?_, ?_, ?_⟩
  · simp [TinderWrapper.getRecommendations, hw]
  · simp [TinderWrapper.getAccount, hw]
  · simp [TinderWrapper.getUser, hw, hu]
  · simp [TinderWrapper.getUpdates, hw, hlad]
  · simp [TinderWrapper.sendMessage, hw, hm, hmsg]
  · simp [TinderWrapper.like, hw, hu]
  · simp [TinderWrapper.pass, hw, hu]

/-- C1 witness: a fresh client (no credential) with valid arguments fails
every authenticated operation with `TinderNotAuthorizedError`. -/
theorem endpoints_require_credential_witness :
    TinderWrapper.getRecommendations { authToken := JSValue.undefined }
      = Except.error TinderError.notAuthorized ∧
    TinderWrapper.getAccount { authToken := JSValue.undefined }
      = Except.error TinderError.notAuthorized ∧
    TinderWrapper.getUser { authToken := JSValue.undefined } (JSValue.str "uid")
      = Except.error TinderError.notAuthorized ∧
    TinderWrapper.getUpdates { authToken := JSValue.undefined } (JSValue.str "")
      = Except.error TinderError.notAuthorized ∧
    TinderWrapper.sendMessage { authToken := JSValue.undefined } (JSValue.str "mid") (JSValue.str "hi")
      = Except.error TinderError.notAuthorized ∧
    TinderWrapper.like { authToken := JSValue.undefined }
      (JSValue.str "uid") (JSValue.str "pid") (JSValue.str "ch") (JSValue.num 1)
      = Except.error TinderError.notAuthorized ∧
    TinderWrapper.pass { authToken := JSValue.undefined } (JSValue.str "uid")
      = Except.error TinderError.notAuthorized :=
  endpoints_require_credential { authToken := JSValue.undefined } rfl
    (JSValue.str "uid") (JSValue.str "mid") (JSValue.str "hi")
    (JSValue.str "pid") (JSValue.str "ch") (JSValue.num 1) (JSValue.str "")
    rfl rfl rfl rfl

/-- C3: `getUpdates` rejects the primitive ISO-8601 string
`'2017-03-25T22:49:41.151Z'` with `Error('invalid arguments')` even on a
client holding a credential — `lastActivityDate instanceof String` is false
for every primitive string — while a `Date` argument is accepted and sent
as its ISO-8601 form, and the default empty string is accepted and sent
unchanged. -/
theorem getUpdates_rejects_primitive_iso_string :
    TinderWrapper.getUpdates { authToken := JSValue.str "sess" }
      (JSValue.str "2017-03-25T22:49:41.151Z")
      = Except.error (TinderError.error "invalid arguments") ∧
    TinderWrapper.getUpdates { authToken := JSValue.str "sess" }
      (JSValue.date "2017-03-25T22:49:41.151Z")
      = Except.ok
          { url := BASE_URL ++ "/updates"
            headers := [("X-Auth-Token", JSValue.str "sess")]
            body := JSValue.obj
              [("last_activity_date", JSValue.str "2017-03-25T22:49:41.151Z")] } ∧
    TinderWrapper.getUpdates { authToken := JSValue.str "sess" } (JSValue.str "")
      = Except.ok
          { url := BASE_URL ++ "/updates"
            headers := [("X-Auth-Token", JSValue.str "sess")]
            body := JSValue.obj [("last_activity_date", JSValue.str "")] } :=
  ⟨rfl, rfl, rfl⟩

/-- C6: `authorize` with a missing (falsy) facebook token or facebook user
id fails with `Error('invalid arguments')` in the synchronous phase — no
request descriptor, hence no network attempt; with both present, on a 200
response (with no application-level status field) whose body carries a
`token` field, the call returns the body and the client's session
credential afterwards equals that token. -/
theorem authorize_validates_and_stores_token (w : TinderWrapper)
    (fat fid : JSValue) (resp : Response) :
    (fat.truthy = false ∨ fid.truthy = false →
      w.authorize fat fid = Except.error (TinderError.error "invalid arguments") ∧
      w.authorizeCall fat fid resp = Except.error (TinderError.error "invalid arguments")) ∧
    (fat.truthy = true → fid.truthy = true → resp.statusCode = 200 →
      (resp.body.get "status").truthy = false →
      w.authorizeCall fat fid resp
        = Except.ok ({ w with authToken := resp.body.get "token" }, resp.body)) := by
  constructor
  · intro h
    cases h with
    | inl h => exact ⟨by simp [TinderWrapper.authorize, h],
        by simp [TinderWrapper.authorizeCall, TinderWrapper.authorize, h]⟩
    | inr h => exact ⟨by simp [TinderWrapper.authorize, h],
        by simp [TinderWrapper.authorizeCall, TinderWrapper.authorize, h]⟩
  · intro hfat hfid hcode hstatus
    simp [TinderWrapper.authorizeCall, TinderWrapper.authorize, handleResponse,
      hfat, hfid, hcode, hstatus]

/-- C6 witness: a missing token fails with `invalid arguments`; with both
arguments present, a 200 response with body `{ token: 'sess' }` returns
that body and leaves the credential equal to `'sess'`. -/
theorem authorize_validates_and_stores_token_witness :
    TinderWrapper.authorize { authToken := JSValue.undefined } (JSValue.str "") (JSValue.str "fbid")
      = Except.error (TinderError.error "invalid arguments") ∧
    TinderWrapper.authorizeCall { authToken := JSValue.undefined }
      (JSValue.str "fbtok") (JSValue.str "fbid")
      ⟨200, "OK", JSValue.obj [("token", JSValue.str "sess")]⟩
      = Except.ok ({ authToken := JSValue.str "sess" },
          JSValue.obj [("token", JSValue.str "sess")]) :=
  ⟨((authorize_validates_and_stores_token { authToken := JSValue.undefined }
      (JSValue.str "") (JSValue.str "fbid")
      ⟨200, "OK", JSValue.obj [("token", JSValue.str "sess")]⟩).1 (Or.inl rfl)).1,
   (authorize_validates_and_stores_token { authToken := JSValue.undefined }
      (JSValue.str "fbtok") (JSValue.str "fbid")
      ⟨200, "OK", JSValue.obj [("token", JSValue.str "sess")]⟩).2 rfl rfl rfl rfl⟩

/-- C8: for every constructor options object, after the `_.defaultsDeep`
merge every field the caller left unspecified takes its documented default
— retry `max_tries = 2`, `interval = 1000` ms, `timeout = 16000` ms,
`throw_original = true` (original-error passthrough); breaker
`timeout = 12000` ms, `threshold = 80` percent,
`circuitDuration = 10800000` ms (3 hours) — and every field the caller
specified keeps the caller's value. -/
theorem constructor_options_merge (o : OptionsArg) :
    (o.retry.max_tries = none → (defaultsDeep o).retry.max_tries = 2) ∧
    (∀ v, o.retry.max_tries = some v → (defaultsDeep o).retry.max_tries = v) ∧
    (o.retry.interval = none → (defaultsDeep o).retry.interval = 1000) ∧
    (∀ v, o.retry.interval = some v → (defaultsDeep o).retry.interval = v) ∧
    (o.retry.timeout = none → (defaultsDeep o).retry.timeout = 16000) ∧
    (∀ v, o.retry.timeout = some v → (defaultsDeep o).retry.timeout = v) ∧
    (o.retry.throw_original = none → (defaultsDeep o).retry.throw_original = true) ∧
    (∀ v, o.retry.throw_original = some v → (defaultsDeep o).retry.throw_original = v) ∧
    (o.breaker.timeout = none → (defaultsDeep o).breaker.timeout = 12000) ∧
    (∀ v, o.breaker.timeout = some v → (defaultsDeep o).breaker.timeout = v) ∧
    (o.breaker.threshold = none → (defaultsDeep o).breaker.threshold = 80) ∧
    (∀ v, o.breaker.threshold = some v → (defaultsDeep o).breaker.threshold = v) ∧
    (o.breaker.circuitDuration = none → (defaultsDeep o).breaker.circuitDuration = 10800000) ∧
    (∀ v, o.breaker.circuitDuration = some v → (defaultsDeep o).breaker.circuitDuration = v) := by
  refine ⟨?_, ?_, ?_, ?_, ?_, ?_, ?_, ?_, ?_, ?_, ?_, ?_, ?_, ?_⟩ <;>
    first
      | (intro h; simp [defaultsDeep, defaultOptions, h])
      | (intro v h; simp [defaultsDeep, defaultOptions, h])

/-- C8 witness: the empty options object merges to every documented
default, and a caller-specified `max_tries` or `circuitDuration` survives
the merge. -/
theorem constructor_options_merge_witness :
    (defaultsDeep {}).retry.max_tries = 2 ∧
    (defaultsDeep {}).retry.interval = 1000 ∧
    (defaultsDeep {}).retry.timeout = 16000 ∧
    (defaultsDeep {}).retry.throw_original = true ∧
    (defaultsDeep {}).breaker.timeout = 12000 ∧
    (defaultsDeep {}).breaker.threshold = 80 ∧
    (defaultsDeep {}).breaker.circuitDuration = 10800000 ∧
    (defaultsDeep { retry := { max_tries := some 5 } }).retry.max_tries = 5 ∧
    (defaultsDeep { breaker := { circuitDuration := some 60000 } }).breaker.circuitDuration
      = 60000 :=
  ⟨(constructor_options_merge {}).1 rfl,
   (constructor_options_merge {}).2.2.1 rfl,
   (constructor_options_merge {}).2.2.2.2.1 rfl,
   (constructor_options_merge {}).2.2.2.2.2.2.1 rfl,
   (constructor_options_merge {}).2.2.2.2.2.2.2.2.1 rfl,
   (constructor_options_merge {}).2.2.2.2.2.2.2.2.2.2.1 rfl,
   (constructor_options_merge {}).2.2.2.2.2.2.2.2.2.2.2.2.1 rfl,
   (constructor_options_merge { retry := { max_tries := some 5 } }).2.1 5 rfl,
   (constructor_options_merge { breaker := { circuitDuration := some 60000 } }).2.2.2.2.2.2.2.2.2.2.2.2.2 60000 rfl⟩

/-- C9: (spec-modelled breaker) in the closed state, a failing call that
takes the rolling failure rate to the threshold opens the circuit; while
the circuit is open, every call strictly before `circuitDuration` ms after
opening is rejected with no transport attempt and leaves the circuit open
unchanged; from `circuitDuration` ms on a probe call is attempted — a
successful probe closes the circuit, a failing probe re-opens it (stamped
at the probe's time). -/
theorem breaker_opens_rejects_then_probes (p : BreakerOpts) (f t now now2 a : Nat) :
    (rateExceeds p.threshold (f + 1) (t + 1) = true →
      breakerCall p (BreakerState.closed f t) now false
        = (BreakerOutcome.attempted false, BreakerState.opened now)) ∧
    (∀ ts : Bool, now2 < a + p.circuitDuration →
      breakerCall p (BreakerState.opened a) now2 ts
        = (BreakerOutcome.rejected, BreakerState.opened a)) ∧
    (a + p.circuitDuration ≤ now2 →
      breakerCall p (BreakerState.opened a) now2 true
        = (BreakerOutcome.attempted true, BreakerState.closed 0 0)) ∧
    (a + p.circuitDuration ≤ now2 →
      breakerCall p (BreakerState.opened a) now2 false
        = (BreakerOutcome.attempted false, BreakerState.opened now2)) := by
  refine ⟨?_, ?_, ?_, ?_⟩
  · intro h
    simp [breakerCall, h]
  · intro ts h
    simp [breakerCall, h]
  · intro h
    simp [breakerCall, Nat.not_lt.mpr h]
  · intro h
    simp [breakerCall, Nat.not_lt.mpr h]

/-- C9 witness: with threshold 80% and a 100 ms open duration, the fifth
failure out of five calls opens the circuit at time 7; calls at time 50 are
rejected without transport; at time 200 a successful probe closes the
circuit and a failing probe re-opens it. -/
theorem breaker_opens_rejects_then_probes_witness :
    breakerCall ⟨12000, 80, 100⟩ (BreakerState.closed 4 4) 7 false
      = (BreakerOutcome.attempted false, BreakerState.opened 7) ∧
    breakerCall ⟨12000, 80, 100⟩ (BreakerState.opened 7) 50 true
      = (BreakerOutcome.rejected, BreakerState.opened 7) ∧
    breakerCall ⟨12000, 80, 100⟩ (BreakerState.opened 7) 200 true
      = (BreakerOutcome.attempted true, BreakerState.closed 0 0) ∧
    breakerCall ⟨12000, 80, 100⟩ (BreakerState.opened 7) 200 false
      = (BreakerOutcome.attempted false, BreakerState.opened 200) :=
  ⟨(breaker_opens_rejects_then_probes ⟨12000, 80, 100⟩ 4 4 7 0 0).1 (by decide),
   (breaker_opens_rejects_then_probes ⟨12000, 80, 100⟩ 0 0 0 50 7).2.1 true (by decide),
   (breaker_opens_rejects_then_probes ⟨12000, 80, 100⟩ 0 0 0 200 7).2.2.1 (by decide),
   (breaker_opens_rejects_then_probes ⟨12000, 80, 100⟩ 0 0 0 200 7).2.2.2 (by decide)⟩
